import Mathlib

/-!
Shallow embedding of the stream-scheduler page
(`src/app/components-react/pages/stream-scheduler/StreamScheduler.tsx`).

The module state, its mutations and the command methods of
`StreamSchedulerModule` are translated into pure Lean functions over an
explicit `SchedulerState`.  Remote platform calls (`updateBroadcast`,
`updateLiveVideo`, `scheduleStream`, `removeBroadcast`, `removeLiveVideo`)
live outside this repository; each command takes the outcome of the call it
makes as an `Except` argument.  JavaScript exceptions (`getDefined`,
`assertIsDefined`, an un-caught rejection) are modelled by a `threw` flag in
the command result, together with the state as mutated up to the throwing
point.  `message.error` toasts are collected in a list of strings.
JavaScript `Date` parsing of ISO strings is kept abstract: the normalizers
are parametrised by a function `dateValueOf : Option String → Int` standing
for `new Date(x).valueOf()`.
-/

namespace Scheduler

/-- The two platforms the scheduler page handles. -/
inductive TPlatform
  | youtube
  | facebook
deriving DecidableEq

/-- Status of a normalized stream event. -/
inductive TStreamStatus
  | scheduled
  | completed
deriving DecidableEq

/-- The `facebook` sub-record of a normalized event: routing info of the
underlying Facebook live video. -/
structure IFacebookDestination where
  destinationType : String
  destinationId : String
deriving DecidableEq

/-- Normalized, platform-agnostic stream event (`IStreamEvent` in the
source). -/
structure IStreamEvent where
  id : String
  platform : TPlatform
  date : Int
  title : String
  status : TStreamStatus
  facebook : Option IFacebookDestination := none
deriving DecidableEq

/-- Native YouTube broadcast status sub-object. -/
structure IYoutubeBroadcastStatus where
  lifeCycleStatus : String
deriving DecidableEq

/-- Native YouTube broadcast snippet sub-object.  The two start-time fields
are ISO date strings that may be absent (`none`). -/
structure IYoutubeBroadcastSnippet where
  title : String
  scheduledStartTime : Option String := none
  actualStartTime : Option String := none
deriving DecidableEq

/-- Native YouTube broadcast resource (`IYoutubeLiveBroadcast`). -/
structure IYoutubeLiveBroadcast where
  id : String
  status : IYoutubeBroadcastStatus
  snippet : IYoutubeBroadcastSnippet
deriving DecidableEq

/-- Native Facebook live-video resource (`IFacebookLiveVideo`). -/
structure IFacebookLiveVideo where
  id : String
  title : String
  planned_start_time : Option String := none
  broadcast_start_time : Option String := none
deriving DecidableEq

/-- Native Facebook live video extended with the destination fields
(`IFacebookLiveVideoExtended`). -/
structure IFacebookLiveVideoExtended where
  id : String
  title : String
  planned_start_time : Option String := none
  broadcast_start_time : Option String := none
  destinationType : String
  destinationId : String
deriving DecidableEq

/-- JavaScript `a || b` on two optional strings: `a` is falsy when it is
`undefined` (`none`) or the empty string. -/
def jsOrStr (a b : Option String) : Option String :=
  match a with
  | some s => if s = "" then b else some s
  | none => b

/-- Embedding of `convertYTBroadcastToEvent`.  `dateValueOf` stands for
`new Date(x).valueOf()` on an optional ISO string. -/
def convertYTBroadcastToEvent (dateValueOf : Option String → Int)
    (ytBroadcast : IYoutubeLiveBroadcast) : IStreamEvent :=
  let status : TStreamStatus :=
    if ytBroadcast.status.lifeCycleStatus = "created"
        ∨ ytBroadcast.status.lifeCycleStatus = "ready" then
      TStreamStatus.scheduled
    else
      TStreamStatus.completed
  { platform := TPlatform.youtube
    id := ytBroadcast.id
    date := dateValueOf
      (jsOrStr ytBroadcast.snippet.scheduledStartTime
        ytBroadcast.snippet.actualStartTime)
    title := ytBroadcast.snippet.title
    status := status
    facebook := none }

/-- Embedding of `convertFBLiveVideoToEvent`. -/
def convertFBLiveVideoToEvent (dateValueOf : Option String → Int)
    (fbLiveVideo : IFacebookLiveVideoExtended) : IStreamEvent :=
  { platform := TPlatform.facebook
    id := fbLiveVideo.id
    date := dateValueOf
      (jsOrStr fbLiveVideo.planned_start_time fbLiveVideo.broadcast_start_time)
    title := fbLiveVideo.title
    status := TStreamStatus.scheduled
    facebook := some
      { destinationType := fbLiveVideo.destinationType
        destinationId := fbLiveVideo.destinationId } }

/-- The spread `{ ...video, ...fbOptions }` used by `saveExistingStream` to
re-attach the stored destination fields to an updated Facebook video. -/
def extendFBVideo (video : IFacebookLiveVideo) (d : IFacebookDestination) :
    IFacebookLiveVideoExtended :=
  { id := video.id
    title := video.title
    planned_start_time := video.planned_start_time
    broadcast_start_time := video.broadcast_start_time
    destinationType := d.destinationType
    destinationId := d.destinationId }

/-- Draft YouTube start-stream options; of the external service type the
scheduler only reads and writes these fields. -/
structure IYoutubeStartStreamOptions where
  scheduledStartTime : Int := 0
  broadcastId : String := ""
deriving DecidableEq

/-- Draft Facebook start-stream options; of the external service type the
scheduler only reads and writes these fields. -/
structure IFacebookStartStreamOptions where
  plannedStartTime : Int := 0
  liveVideoId : String := ""
  destinationType : String := ""
deriving DecidableEq

/-- Per-platform draft settings (`ISchedulerPlatformSettings`); a `none`
entry is an `undefined` draft, on which `getDefined` throws. -/
structure ISchedulerPlatformSettings where
  youtube : Option IYoutubeStartStreamOptions := none
  facebook : Option IFacebookStartStreamOptions := none
deriving DecidableEq

/-- The state object of `StreamSchedulerModule`. -/
structure SchedulerState where
  isLoading : Bool := false
  isEventsLoaded : Bool := false
  events : List IStreamEvent := []
  isModalVisible : Bool := false
  selectedEventId : String := ""
  time : Int := 0
  selectedPlatform : TPlatform
  platformSettings : ISchedulerPlatformSettings := {}
deriving DecidableEq

/-- Getter `selectedEvent`: first event whose id equals `selectedEventId`
(the platform is not consulted). -/
def selectedEvent (s : SchedulerState) : Option IStreamEvent :=
  s.events.find? (fun ev => s.selectedEventId = ev.id)

/-- Getter `isUpdateMode`: `!!this.state.selectedEventId`. -/
def isUpdateMode (s : SchedulerState) : Bool :=
  s.selectedEventId ≠ ""

/-- JavaScript `Array.prototype.findIndex`: index of the first match, `-1`
when there is none. -/
def jsFindIndex (p : α → Bool) (l : List α) : Int :=
  match l.findIdx? p with
  | some i => (i : Int)
  | none => -1

/-- JavaScript `l.splice(start, 1, x)`: a negative `start` counts from the
end (clamped at 0), one element at the resulting position is removed and `x`
is inserted there. -/
def jsSplice1 (l : List α) (start : Int) (x : α) : List α :=
  let st : Nat :=
    if start < 0 then ((l.length : Int) + start).toNat
    else min start.toNat l.length
  l.take st ++ [x] ++ l.drop (st + 1)

/-- Mutation `setEvent`: `findIndex` by id, then `splice(ind, 1, event)`. -/
def setEvent (id : String) (event : IStreamEvent) (s : SchedulerState) :
    SchedulerState :=
  { s with events :=
      jsSplice1 s.events (jsFindIndex (fun ev => ev.id = id) s.events) event }

/-- Mutation `REMOVE_EVENT`: keep the events whose id differs. -/
def REMOVE_EVENT (id : String) (s : SchedulerState) : SchedulerState :=
  { s with events := s.events.filter (fun ev => ev.id ≠ id) }

/-- Mutation `setEvents`: mark events loaded and replace the list. -/
def setEvents (events : List IStreamEvent) (s : SchedulerState) :
    SchedulerState :=
  { s with isEventsLoaded := true, events := events }

/-- Mutation `addEvent` (defined in the source but never called): push. -/
def addEvent (event : IStreamEvent) (s : SchedulerState) : SchedulerState :=
  { s with events := s.events ++ [event] }

/-- Mutation `reset`: clear the list and restore default drafts. -/
def reset (defaults : ISchedulerPlatformSettings) (s : SchedulerState) :
    SchedulerState :=
  { s with events := [], platformSettings := defaults }

/-- Mutation `showLoader`. -/
def showLoader (s : SchedulerState) : SchedulerState :=
  { s with isLoading := true }

/-- Mutation `hideLoader`. -/
def hideLoader (s : SchedulerState) : SchedulerState :=
  { s with isLoading := false }

/-- Mutation `closeModal`: clear selection, hide the modal, restore default
drafts, clear loading. -/
def closeModal (defaults : ISchedulerPlatformSettings) (s : SchedulerState) :
    SchedulerState :=
  { s with selectedEventId := ""
           isModalVisible := false
           platformSettings := defaults
           isLoading := false }

/-- Result of running one command: the state after it, the `message.error`
toasts it emitted, and whether an exception escaped it un-caught. -/
structure CmdResult where
  state : SchedulerState
  toasts : List String
  threw : Bool
deriving DecidableEq

/-- Toast shown by `showNewEventModal` for a past date. -/
def msgPastDate : String := "You can not schedule to a past date"

/-- Facebook-specific toast of `handleError`. -/
def msgFbWindow : String :=
  "Please schedule no further than 7 days in advance and no sooner than 10 minutes in advance."

/-- Generic toast of `handleError`. -/
def msgGeneric : String := "Can not schedule the stream for the given date/time"

/-- Toast shown by `submit` when form validation fails. -/
def msgInvalid : String := "Invalid settings. Please check the form"

/-- Mutation `setTime`: store the time, then propagate it into the draft of
the selected platform; `getDefined` throws when that draft is `undefined`,
after `state.time` was already written. -/
def setTime (time : Int) (s : SchedulerState) : SchedulerState × Bool :=
  let s1 := { s with time := time }
  if s1.selectedPlatform = TPlatform.facebook then
    match s1.platformSettings.facebook with
    | some fb =>
        ({ s1 with platformSettings :=
            { s1.platformSettings with
                facebook := some { fb with plannedStartTime := time } } },
          false)
    | none => (s1, true)
  else
    match s1.platformSettings.youtube with
    | some yt =>
        ({ s1 with platformSettings :=
            { s1.platformSettings with
                youtube := some { yt with scheduledStartTime := time } } },
          false)
    | none => (s1, true)

/-- The effective time of `showNewEventModal`:
`selectedTime?.valueOf() || this.state.time` (JavaScript falsy `||`, so a
present moment whose value is `0` falls back to the stored draft time). -/
def effectiveTime (selectedTime : Option Int) (s : SchedulerState) : Int :=
  match selectedTime with
  | some t => if t = 0 then s.time else t
  | none => s.time

/-- Mutation `showNewEventModal`.  `today` is `new Date().setHours(0,0,0,0)`
(start of the current local calendar day); `selectedTime` is the optional
moment argument, as epoch milliseconds.  The effective time is
`selectedTime?.valueOf() || state.time`, so a present but zero time falls
back to the stored draft time (JavaScript falsy `||`). -/
def showNewEventModal (today : Int) (platform : TPlatform)
    (selectedTime : Option Int) (s : SchedulerState) : CmdResult :=
  let time : Int := effectiveTime selectedTime s
  if time < today then
    { state := s, toasts := [msgPastDate], threw := false }
  else
    let s1 := { s with selectedPlatform := platform, isModalVisible := true }
    let r := setTime time s1
    { state := r.1, toasts := [], threw := r.2 }

/-- Command `loadEvents`, applied to the already-fetched native lists:
reset, convert YouTube broadcasts first, then Facebook videos, then commit
via `setEvents`. -/
def loadEvents (dateValueOf : Option String → Int)
    (defaults : ISchedulerPlatformSettings)
    (ytEvents : List IYoutubeLiveBroadcast)
    (fbEvents : List IFacebookLiveVideoExtended)
    (s : SchedulerState) : SchedulerState :=
  setEvents
    (ytEvents.map (convertYTBroadcastToEvent dateValueOf)
      ++ fbEvents.map (convertFBLiveVideoToEvent dateValueOf))
    (reset defaults s)

/-- Method `handleError`: platform-specific toast, then `hideLoader`; the
modal and the event list are untouched and the error does not re-propagate. -/
def handleError (s : SchedulerState) : CmdResult :=
  let msg :=
    if s.selectedPlatform = TPlatform.facebook then msgFbWindow else msgGeneric
  { state := hideLoader s, toasts := [msg], threw := false }

/-- A command result standing for an exception escaping at state `s`. -/
def thrownAt (s : SchedulerState) : CmdResult :=
  { state := s, toasts := [], threw := true }

/-- Command `remove`: show the loader, issue the platform delete
(fire-and-forget: `remoteResult`, the eventual outcome of the remote call,
is never consulted), remove the event locally by id and close the modal.
In the Facebook branch `getDefined(this.selectedEvent)` and
`getDefined(event.facebook)` throw when undefined, before the local removal
happens. -/
def remove (defaults : ISchedulerPlatformSettings)
    (remoteResult : Except Unit Unit) (s : SchedulerState) : CmdResult :=
  let _ := remoteResult
  let s1 := showLoader s
  if s1.selectedPlatform = TPlatform.youtube then
    { state := closeModal defaults (REMOVE_EVENT s1.selectedEventId s1)
      toasts := []
      threw := false }
  else
    match selectedEvent s1 with
    | none => thrownAt s1
    | some event =>
      match event.facebook with
      | none => thrownAt s1
      | some _fbOptions =>
        { state := closeModal defaults (REMOVE_EVENT s1.selectedEventId s1)
          toasts := []
          threw := false }

/-- Command `saveExistingStream`, applied to the outcome of the platform
update call it makes.  The YouTube branch awaits `updateBroadcast` with no
try/catch, so a failure there escapes; the Facebook branch reads
`selectedEvent` and its `facebook` sub-record through `getDefined` (throwing
when undefined) and wraps `updateLiveVideo` in try/catch, routing a failure
to `handleError`. -/
def saveExistingStream (dateValueOf : Option String → Int)
    (defaults : ISchedulerPlatformSettings)
    (ytUpdateResult : Except Unit IYoutubeLiveBroadcast)
    (fbUpdateResult : Except Unit IFacebookLiveVideo)
    (s : SchedulerState) : CmdResult :=
  if s.selectedPlatform = TPlatform.youtube then
    match s.platformSettings.youtube with
    | none => thrownAt s
    | some _streamSettings =>
      match ytUpdateResult with
      | Except.error _ => thrownAt s
      | Except.ok video =>
        { state := closeModal defaults
            (setEvent video.id (convertYTBroadcastToEvent dateValueOf video) s)
          toasts := []
          threw := false }
  else
    match s.platformSettings.facebook with
    | none => thrownAt s
    | some _streamSettings =>
      match selectedEvent s with
      | none => thrownAt s
      | some event =>
        match event.facebook with
        | none => thrownAt s
        | some fbOptions =>
          match fbUpdateResult with
          | Except.error _ => handleError s
          | Except.ok video =>
            { state := closeModal defaults
                (setEvent video.id
                  (convertFBLiveVideoToEvent dateValueOf
                    (extendFBVideo video fbOptions)) s)
              toasts := []
              threw := false }

/-- Command `saveNewStream`, applied to the outcome of the
`service.scheduleStream` call it makes (one argument per platform; only the
selected platform's outcome is consulted).  `getDestinationId` stands for
`FacebookService.views.getDestinationId`.  A failure of the schedule call is
routed to `handleError`; on success the returned resource is normalized and
stored with `setEvent(video.id, event)` and the modal closes. -/
def saveNewStream (dateValueOf : Option String → Int)
    (defaults : ISchedulerPlatformSettings)
    (getDestinationId : IFacebookStartStreamOptions → String)
    (ytScheduleResult : Except Unit IYoutubeLiveBroadcast)
    (fbScheduleResult : Except Unit IFacebookLiveVideo)
    (s : SchedulerState) : CmdResult :=
  if s.selectedPlatform = TPlatform.youtube then
    match s.platformSettings.youtube with
    | none => thrownAt s
    | some _streamSettings =>
      match ytScheduleResult with
      | Except.error _ => handleError s
      | Except.ok video =>
        { state := closeModal defaults
            (setEvent video.id (convertYTBroadcastToEvent dateValueOf video) s)
          toasts := []
          threw := false }
  else
    match s.platformSettings.facebook with
    | none => thrownAt s
    | some fbSettings =>
      match fbScheduleResult with
      | Except.error _ => handleError s
      | Except.ok video =>
        let event := convertFBLiveVideoToEvent dateValueOf
          { id := video.id
            title := video.title
            planned_start_time := video.planned_start_time
            broadcast_start_time := video.broadcast_start_time
            destinationType := fbSettings.destinationType
            destinationId := getDestinationId fbSettings }
        { state := closeModal defaults (setEvent video.id event s)
          toasts := []
          threw := false }

/-- Command `submit`: on validation failure, toast and stop; otherwise show
the loader and branch on `isUpdateMode` into `saveExistingStream` or
`saveNewStream`. -/
def submit (validationOk : Bool) (dateValueOf : Option String → Int)
    (defaults : ISchedulerPlatformSettings)
    (getDestinationId : IFacebookStartStreamOptions → String)
    (ytUpdateResult : Except Unit IYoutubeLiveBroadcast)
    (fbUpdateResult : Except Unit IFacebookLiveVideo)
    (ytScheduleResult : Except Unit IYoutubeLiveBroadcast)
    (fbScheduleResult : Except Unit IFacebookLiveVideo)
    (s : SchedulerState) : CmdResult :=
  if !validationOk then
    { state := s, toasts := [msgInvalid], threw := false }
  else
    let s1 := showLoader s
    if isUpdateMode s1 then
      saveExistingStream dateValueOf defaults ytUpdateResult fbUpdateResult s1
    else
      saveNewStream dateValueOf defaults getDestinationId ytScheduleResult
        fbScheduleResult s1

/-- Milliseconds spanned by `endOf(day)` past `startOf(day)` in moment:
the last millisecond of the day. -/
def dayEndOffset : Int := 86399999

/-- The day-cell computation of `dateCellRender`: the events whose date is
`isBetween(startOf(day), endOf(day))` — moment default, exclusive at both
ends — sorted ascending by date (JavaScript sort is stable). -/
def dateCellRender (events : List IStreamEvent) (dayStart : Int) :
    List IStreamEvent :=
  let dayEnd := dayStart + dayEndOffset
  (events.filter
      (fun ev => decide (dayStart < ev.date) && decide (ev.date < dayEnd))).mergeSort
    (fun ev1 ev2 => decide (ev1.date ≤ ev2.date))

/-- A state with the events transformed pointwise; used to express that the
scheduler operations are blind to every field but `id`. -/
def mapEvents (f : IStreamEvent → IStreamEvent) (s : SchedulerState) :
    SchedulerState :=
  { s with events := s.events.map f }

/-- A concrete stand-in for `new Date(x).valueOf()` used in closed
statements: length of the string, `-1` for `undefined`. -/
def d0 : Option String → Int :=
  fun x => match x with
  | none => -1
  | some st => (st.length : Int)

/-- Concrete default drafts with both platform entries defined. -/
def defaults0 : ISchedulerPlatformSettings :=
  { youtube := some {}, facebook := some {} }

/-- Concrete YouTube-platform event with id `x`. -/
def ytEvX : IStreamEvent :=
  { id := "x", platform := TPlatform.youtube, date := 10, title := "yt"
    status := TStreamStatus.scheduled }

/-- Concrete Facebook-platform event sharing id `x` with `ytEvX`. -/
def fbEvX : IStreamEvent :=
  { id := "x", platform := TPlatform.facebook, date := 20, title := "fb"
    status := TStreamStatus.scheduled
    facebook := some { destinationType := "page", destinationId := "p1" } }

/-- Concrete pre-existing event with id `old`. -/
def oldEv : IStreamEvent :=
  { id := "old", platform := TPlatform.youtube, date := 10, title := "old"
    status := TStreamStatus.scheduled }

/-- Concrete state for the create-mode submit scenario: one loaded event,
no selection, YouTube targeted, modal open. -/
def sCreate : SchedulerState :=
  { events := [oldEv], selectedEventId := "", selectedPlatform := TPlatform.youtube
    platformSettings := defaults0, isModalVisible := true }

/-- Concrete YouTube broadcast returned by a schedule call, with a fresh id. -/
def newYT : IYoutubeLiveBroadcast :=
  { id := "new", status := { lifeCycleStatus := "ready" }
    snippet := { title := "n", scheduledStartTime := some "T" } }

/-- Concrete state holding two events that share id `x` across platforms,
with the Facebook one selected for editing. -/
def sCollide : SchedulerState :=
  { events := [ytEvX, fbEvX], selectedEventId := "x"
    selectedPlatform := TPlatform.facebook, platformSettings := defaults0 }

/-- Concrete state for the update-mode submit scenario on YouTube. -/
def sUpdateYT : SchedulerState :=
  { events := [ytEvX], selectedEventId := "x"
    selectedPlatform := TPlatform.youtube, platformSettings := defaults0
    isModalVisible := true }

/-- Concrete state with a stored draft time and a closed modal. -/
def sDraft : SchedulerState :=
  { time := 5, selectedPlatform := TPlatform.youtube
    platformSettings := defaults0 }

/-- Concrete state for the remove scenario: the Facebook event selected. -/
def sRemoveFB : SchedulerState :=
  { events := [fbEvX], selectedEventId := "x"
    selectedPlatform := TPlatform.facebook, platformSettings := defaults0
    isModalVisible := true }

/-- Concrete native YouTube broadcast of the spec scenario §8. -/
def bLaunch : IYoutubeLiveBroadcast :=
  { id := "yt1", status := { lifeCycleStatus := "ready" }
    snippet := { title := "Launch"
                 scheduledStartTime := some "2024-01-01T10:00:00Z" } }

/-- Concrete native Facebook live video with a planned start time. -/
def vFb : IFacebookLiveVideoExtended :=
  { id := "fb1", title := "FbStream", planned_start_time := some "2024-02-02T09:00:00Z"
    destinationType := "page", destinationId := "p1" }

/-- Concrete id-preserving event transformation: flips every event to the
Facebook platform and zeroes its date, keeping the id. -/
def flipPlatform : IStreamEvent → IStreamEvent :=
  fun ev => { ev with platform := TPlatform.facebook, date := 0 }

/-- Concrete event exactly at the start of the day beginning at 0. -/
def evAtStart : IStreamEvent :=
  { id := "s", platform := TPlatform.youtube, date := 0, title := "t"
    status := TStreamStatus.scheduled }

/-- Concrete event exactly at the last millisecond of the day beginning
at 0. -/
def evAtEnd : IStreamEvent :=
  { id := "e", platform := TPlatform.youtube, date := dayEndOffset, title := "t"
    status := TStreamStatus.scheduled }

/-- The loader mutation does not touch the fields `selectedEvent` reads. -/
theorem selectedEvent_showLoader (s : SchedulerState) :
    selectedEvent (showLoader s) = selectedEvent s := rfl

/-- Filtering a mapped list commutes with the map when the map preserves
the predicate. -/
theorem filter_map_pres (p : IStreamEvent → Bool)
    (f : IStreamEvent → IStreamEvent) (hp : ∀ ev, p (f ev) = p ev)
    (l : List IStreamEvent) :
    (l.map f).filter p = (l.filter p).map f := by
  induction l with
  | nil => rfl
  | cons a l ih =>
      simp only [List.map_cons, List.filter_cons, hp a]
      cases h : p a <;> simp [h, ih]

/-- Finding in a mapped list commutes with the map when the map preserves
the predicate. -/
theorem find_map_pres (p : IStreamEvent → Bool)
    (f : IStreamEvent → IStreamEvent) (hp : ∀ ev, p (f ev) = p ev)
    (l : List IStreamEvent) :
    (l.map f).find? p = (l.find? p).map f := by
  induction l with
  | nil => rfl
  | cons a l ih =>
      simp only [List.map_cons, List.find?_cons, hp a]
      cases h : p a <;> simp [h, ih]

/-- The index found by an id predicate is unchanged by an id-preserving map
of the list. -/
theorem findIdx_id_map (f : IStreamEvent → IStreamEvent)
    (hf : ∀ ev, (f ev).id = ev.id) (id : String) (l : List IStreamEvent) :
    jsFindIndex (fun ev => ev.id = id) (l.map f)
      = jsFindIndex (fun ev => ev.id = id) l := by
  unfold jsFindIndex
  have h : l.findIdx? (fun ev => (f ev).id = id) = l.findIdx? (fun ev => ev.id = id) := by
    apply congrArg (fun p => l.findIdx? p)
    funext ev
    rw [hf ev]
  rw [List.findIdx?_map]
  have hc : ((fun ev => decide (ev.id = id)) ∘ f) = fun ev => decide ((f ev).id = id) := rfl
  rw [hc]
  simp only [hf]

/-- C6: for every native YouTube broadcast resource, the normalizer returns
an event with platform youtube, id and title copied from the native
resource, status scheduled exactly when the native lifecycle status is
`created` or `ready` (completed otherwise), and date equal to the date value
of the native scheduled start time when that is present (and nonempty, the
JavaScript truthiness of the field), else of the native actual start time. -/
theorem C6_yt_normalizer (d : Option String → Int)
    (b : IYoutubeLiveBroadcast) :
    (convertYTBroadcastToEvent d b).platform = TPlatform.youtube ∧
    (convertYTBroadcastToEvent d b).id = b.id ∧
    (convertYTBroadcastToEvent d b).title = b.snippet.title ∧
    ((convertYTBroadcastToEvent d b).status = TStreamStatus.scheduled ↔
      (b.status.lifeCycleStatus = "created" ∨
        b.status.lifeCycleStatus = "ready")) ∧
    ((convertYTBroadcastToEvent d b).status = TStreamStatus.completed ↔
      ¬(b.status.lifeCycleStatus = "created" ∨
        b.status.lifeCycleStatus = "ready")) ∧
    (∀ st : String, b.snippet.scheduledStartTime = some st → st ≠ "" →
      (convertYTBroadcastToEvent d b).date = d (some st)) ∧
    (b.snippet.scheduledStartTime = none →
      (convertYTBroadcastToEvent d b).date = d b.snippet.actualStartTime) := by
  refine ⟨rfl, rfl, rfl, ?_, ?_, ?_, ?_⟩
  · by_cases h : (b.status.lifeCycleStatus = "created" ∨
        b.status.lifeCycleStatus = "ready") <;>
      simp [convertYTBroadcastToEvent, h]
  · by_cases h : (b.status.lifeCycleStatus = "created" ∨
        b.status.lifeCycleStatus = "ready") <;>
      simp [convertYTBroadcastToEvent, h]
  · intro st hst hne
    simp [convertYTBroadcastToEvent, jsOrStr, hst, hne]
  · intro hnone
    simp [convertYTBroadcastToEvent, jsOrStr, hnone]

/-- Witness for C6: the spec §8 scenario broadcast (lifecycle `ready`,
scheduled start time present) normalizes to a scheduled youtube event dated
by its scheduled start time. -/
theorem C6_yt_normalizer_witness :
    (convertYTBroadcastToEvent d0 bLaunch).platform = TPlatform.youtube ∧
    (convertYTBroadcastToEvent d0 bLaunch).id = "yt1" ∧
    (convertYTBroadcastToEvent d0 bLaunch).title = "Launch" ∧
    (convertYTBroadcastToEvent d0 bLaunch).status = TStreamStatus.scheduled ∧
    (convertYTBroadcastToEvent d0 bLaunch).date
      = d0 (some "2024-01-01T10:00:00Z") :=
  ⟨(C6_yt_normalizer d0 bLaunch).1,
    (C6_yt_normalizer d0 bLaunch).2.1,
    (C6_yt_normalizer d0 bLaunch).2.2.1,
    ((C6_yt_normalizer d0 bLaunch).2.2.2.1).mpr (Or.inr rfl),
    (C6_yt_normalizer d0 bLaunch).2.2.2.2.2.1 "2024-01-01T10:00:00Z" rfl
      (by decide)⟩

/-- C7: for every native Facebook live-video resource, the normalizer
returns an event with platform facebook, status always scheduled, date equal
to the date value of the planned start time when present (and nonempty, the
JavaScript truthiness of the field), else of the broadcast start time, and a
facebook sub-record always populated with the destinationType and
destinationId of the resource. -/
theorem C7_fb_normalizer (d : Option String → Int)
    (v : IFacebookLiveVideoExtended) :
    (convertFBLiveVideoToEvent d v).platform = TPlatform.facebook ∧
    (convertFBLiveVideoToEvent d v).id = v.id ∧
    (convertFBLiveVideoToEvent d v).title = v.title ∧
    (convertFBLiveVideoToEvent d v).status = TStreamStatus.scheduled ∧
    (convertFBLiveVideoToEvent d v).facebook
      = some { destinationType := v.destinationType
               destinationId := v.destinationId } ∧
    (∀ st : String, v.planned_start_time = some st → st ≠ "" →
      (convertFBLiveVideoToEvent d v).date = d (some st)) ∧
    (v.planned_start_time = none →
      (convertFBLiveVideoToEvent d v).date = d v.broadcast_start_time) := by
  refine ⟨rfl, rfl, rfl, rfl, rfl, ?_, ?_⟩
  · intro st hst hne
    simp [convertFBLiveVideoToEvent, jsOrStr, hst, hne]
  · intro hnone
    simp [convertFBLiveVideoToEvent, jsOrStr, hnone]

/-- Witness for C7: a concrete Facebook video with a planned start time
normalizes to a scheduled facebook event carrying its destination fields. -/
theorem C7_fb_normalizer_witness :
    (convertFBLiveVideoToEvent d0 vFb).platform = TPlatform.facebook ∧
    (convertFBLiveVideoToEvent d0 vFb).status = TStreamStatus.scheduled ∧
    (convertFBLiveVideoToEvent d0 vFb).facebook
      = some { destinationType := "page", destinationId := "p1" } ∧
    (convertFBLiveVideoToEvent d0 vFb).date
      = d0 (some "2024-02-02T09:00:00Z") :=
  ⟨(C7_fb_normalizer d0 vFb).1,
    (C7_fb_normalizer d0 vFb).2.2.2.1,
    (C7_fb_normalizer d0 vFb).2.2.2.2.1,
    (C7_fb_normalizer d0 vFb).2.2.2.2.2.1 "2024-02-02T09:00:00Z" rfl
      (by decide)⟩

/-- C4: for every pair of platform fetch results, loadEvents produces a list
of exactly m + n normalized events, all YouTube events (each tagged
youtube) preceding all Facebook events (each tagged facebook), and sets
isEventsLoaded to true — including when m + n = 0. -/
theorem C4_loadEvents (d : Option String → Int)
    (defaults : ISchedulerPlatformSettings)
    (yt : List IYoutubeLiveBroadcast) (fb : List IFacebookLiveVideoExtended)
    (s : SchedulerState) :
    (loadEvents d defaults yt fb s).events.length = yt.length + fb.length ∧
    (loadEvents d defaults yt fb s).isEventsLoaded = true ∧
    (loadEvents d defaults yt fb s).events.take yt.length
      = yt.map (convertYTBroadcastToEvent d) ∧
    (loadEvents d defaults yt fb s).events.drop yt.length
      = fb.map (convertFBLiveVideoToEvent d) ∧
    (∀ ev ∈ (loadEvents d defaults yt fb s).events.take yt.length,
      ev.platform = TPlatform.youtube) ∧
    (∀ ev ∈ (loadEvents d defaults yt fb s).events.drop yt.length,
      ev.platform = TPlatform.facebook) := by
  have hev : (loadEvents d defaults yt fb s).events
      = yt.map (convertYTBroadcastToEvent d)
        ++ fb.map (convertFBLiveVideoToEvent d) := rfl
  have htake : (loadEvents d defaults yt fb s).events.take yt.length
      = yt.map (convertYTBroadcastToEvent d) := by
    rw [hev]
    have := List.take_left (yt.map (convertYTBroadcastToEvent d))
      (fb.map (convertFBLiveVideoToEvent d))
    simp only [List.length_map] at this
    exact this
  have hdrop : (loadEvents d defaults yt fb s).events.drop yt.length
      = fb.map (convertFBLiveVideoToEvent d) := by
    rw [hev]
    have := List.drop_left (yt.map (convertYTBroadcastToEvent d))
      (fb.map (convertFBLiveVideoToEvent d))
    simp only [List.length_map] at this
    exact this
  refine ⟨?_, rfl, htake, hdrop, ?_, ?_⟩
  · rw [hev]; simp
  · intro ev hmem
    rw [htake] at hmem
    obtain ⟨b, _, hb⟩ := List.mem_map.mp hmem
    rw [← hb]
    exact (C6_yt_normalizer d b).1
  · intro ev hmem
    rw [hdrop] at hmem
    obtain ⟨v, _, hv⟩ := List.mem_map.mp hmem
    rw [← hv]
    exact (C7_fb_normalizer d v).1

/-- Witness for C4: loading one YouTube broadcast and two Facebook videos
yields three events, youtube first, then the two facebook ones, with the
loaded flag set. -/
theorem C4_loadEvents_witness :
    (loadEvents d0 defaults0 [bLaunch] [vFb, vFb] sDraft).events.length
      = 1 + 2 ∧
    (loadEvents d0 defaults0 [bLaunch] [vFb, vFb] sDraft).isEventsLoaded
      = true ∧
    (∀ ev ∈ (loadEvents d0 defaults0 [bLaunch] [vFb, vFb] sDraft).events.take 1,
      ev.platform = TPlatform.youtube) ∧
    (∀ ev ∈ (loadEvents d0 defaults0 [bLaunch] [vFb, vFb] sDraft).events.drop 1,
      ev.platform = TPlatform.facebook) :=
  ⟨(C4_loadEvents d0 defaults0 [bLaunch] [vFb, vFb] sDraft).1,
    (C4_loadEvents d0 defaults0 [bLaunch] [vFb, vFb] sDraft).2.1,
    (C4_loadEvents d0 defaults0 [bLaunch] [vFb, vFb] sDraft).2.2.2.2.1,
    (C4_loadEvents d0 defaults0 [bLaunch] [vFb, vFb] sDraft).2.2.2.2.2⟩

/-- C10: remove leaves every event whose id differs from selectedEventId in
the list unchanged (the surviving list is a sublist of the original, so
surviving events keep all their fields and their relative order), and the
events with a differing id are exactly preserved, whatever the state and
whatever the outcome of the remote delete call. -/
theorem C10_remove_frame (defaults : ISchedulerPlatformSettings)
    (r : Except Unit Unit) (s : SchedulerState) :
    ((remove defaults r s).state.events.filter
        (fun ev => ev.id ≠ s.selectedEventId)
      = s.events.filter (fun ev => ev.id ≠ s.selectedEventId)) ∧
    (remove defaults r s).state.events.Sublist s.events := by
  have hfilter : ∀ l : List IStreamEvent,
      (l.filter (fun ev => ev.id ≠ s.selectedEventId)).filter
          (fun ev => ev.id ≠ s.selectedEventId)
        = l.filter (fun ev => ev.id ≠ s.selectedEventId) := by
    intro l
    rw [List.filter_filter]
    apply List.filter_congr
    intro ev _
    cases h : (decide (ev.id ≠ s.selectedEventId)) <;> simp [h]
  unfold remove
  dsimp only
  split
  · exact ⟨hfilter s.events, List.filter_sublist s.events⟩
  · split
    · exact ⟨rfl, List.Sublist.refl s.events⟩
    · split
      · exact ⟨rfl, List.Sublist.refl s.events⟩
      · exact ⟨hfilter s.events, List.filter_sublist s.events⟩

/-- C8: when an event with id selectedEventId is present (and, in the
Facebook branch, carries the facebook sub-record that `getDefined` reads),
remove deletes every event with that id from the list and closes the modal,
with no exception escaping, and its outcome is the same whatever the result
of the remote platform delete call — the local removal does not wait on the
remote result. -/
theorem C8_remove_unconditional (defaults : ISchedulerPlatformSettings)
    (r : Except Unit Unit) (s : SchedulerState)
    (h1 : ∃ ev ∈ s.events, ev.id = s.selectedEventId)
    (h2 : s.selectedPlatform = TPlatform.facebook →
      ∀ ev, selectedEvent s = some ev → ev.facebook ≠ none) :
    (remove defaults r s).threw = false ∧
    (∀ ev ∈ (remove defaults r s).state.events,
      ev.id ≠ s.selectedEventId) ∧
    (remove defaults r s).state.isModalVisible = false ∧
    (remove defaults r s).state.selectedEventId = "" ∧
    (remove defaults r s).state.isLoading = false ∧
    (∀ r2 : Except Unit Unit, remove defaults r2 s = remove defaults r s) := by
  have hmem : ∀ ev ∈ s.events.filter (fun e => e.id ≠ s.selectedEventId),
      ev.id ≠ s.selectedEventId := by
    intro ev hev
    have := List.of_mem_filter hev
    simpa using this
  have hred : ∀ r2 : Except Unit Unit, remove defaults r2 s
      = { state := closeModal defaults
            (REMOVE_EVENT s.selectedEventId (showLoader s))
          toasts := [], threw := false } := by
    intro r2
    by_cases hp : s.selectedPlatform = TPlatform.youtube
    · have hps : (showLoader s).selectedPlatform = TPlatform.youtube := hp
      unfold remove
      rw [if_pos hps]
      exact rfl
    · have hp2 : s.selectedPlatform = TPlatform.facebook := by
        cases h : s.selectedPlatform
        · exact absurd h hp
        · rfl
      obtain ⟨ev0, hev0, hid0⟩ := h1
      have hfind : ∃ evf, selectedEvent s = some evf := by
        have : (s.events.find? (fun e => s.selectedEventId = e.id)).isSome := by
          rw [List.find?_isSome]
          exact ⟨ev0, hev0, by simp [hid0]⟩
        exact Option.isSome_iff_exists.mp this
      obtain ⟨evf, hevf⟩ := hfind
      obtain ⟨fbo, hfbo⟩ := Option.ne_none_iff_exists.mp (h2 hp2 evf hevf)
      have hps : (showLoader s).selectedPlatform = TPlatform.facebook := hp2
      have hsel : selectedEvent (showLoader s) = some evf := hevf
      unfold remove
      rw [if_neg (show ¬(showLoader s).selectedPlatform = TPlatform.youtube from
        by rw [hps]; exact fun h => nomatch h)]
      simp only [hsel]
      rw [show evf.facebook = some fbo from hfbo.symm]
      exact rfl
  refine ⟨by rw [hred r], ?_, by rw [hred r]; rfl, by rw [hred r]; rfl,
    by rw [hred r]; rfl, ?_⟩
  · intro ev hev
    rw [hred r] at hev
    exact hmem ev hev
  · intro r2
    rw [hred r2, hred r]

/-- Witness for C8: removing the selected Facebook event deletes it and
closes the modal, identically for a failed and a successful remote delete. -/
theorem C8_remove_unconditional_witness :
    (∃ ev ∈ sRemoveFB.events, ev.id = sRemoveFB.selectedEventId) ∧
    (remove defaults0 (Except.error ()) sRemoveFB).threw = false ∧
    (remove defaults0 (Except.error ()) sRemoveFB).state.isModalVisible
      = false ∧
    remove defaults0 (Except.ok ()) sRemoveFB
      = remove defaults0 (Except.error ()) sRemoveFB := by
  have h1 : ∃ ev ∈ sRemoveFB.events, ev.id = sRemoveFB.selectedEventId := by
    exact ⟨fbEvX, by decide, by decide⟩
  have h2 : sRemoveFB.selectedPlatform = TPlatform.facebook →
      ∀ ev, selectedEvent sRemoveFB = some ev → ev.facebook ≠ none := by
    intro _ ev hev
    have hsel : selectedEvent sRemoveFB = some fbEvX := by decide
    rw [hsel] at hev
    cases hev
    decide
  have hmain := C8_remove_unconditional defaults0 (Except.error ()) sRemoveFB h1 h2
  exact ⟨h1, hmain.1, hmain.2.2.1, hmain.2.2.2.2.2 (Except.ok ())⟩

/-- C3 counterexample: in a state holding two distinct events that share id
`x` but differ in platform, with the Facebook one being edited
(selectedPlatform facebook), selectedEvent returns the YouTube event — an
event of the wrong platform — and REMOVE_EVENT on `x` removes both events,
so removal also hits the wrong platform; id and platform together are not
the identity key the operations use. -/
theorem C3_identity_key_counterexample :
    ytEvX ∈ sCollide.events ∧ fbEvX ∈ sCollide.events ∧
    ytEvX ≠ fbEvX ∧ ytEvX.id = fbEvX.id ∧
    ytEvX.platform ≠ fbEvX.platform ∧
    sCollide.selectedPlatform = TPlatform.facebook ∧
    sCollide.selectedEventId = "x" ∧
    selectedEvent sCollide = some ytEvX ∧
    (REMOVE_EVENT "x" sCollide).events = [] := by
  decide

/-- C3 amended: the operations key on id alone and ignore the platform (and
every other field): an id-preserving transformation of all events commutes
with lookup, with the replacement index of setEvent, and with removal; and
removal deletes exactly the events whose id matches, across platforms. -/
theorem C3_amended_id_only_key (s : SchedulerState) (id : String)
    (f : IStreamEvent → IStreamEvent) (hf : ∀ ev, (f ev).id = ev.id) :
    selectedEvent (mapEvents f s) = (selectedEvent s).map f ∧
    (REMOVE_EVENT id (mapEvents f s)).events
      = ((REMOVE_EVENT id s).events).map f ∧
    jsFindIndex (fun ev => ev.id = id) (mapEvents f s).events
      = jsFindIndex (fun ev => ev.id = id) s.events ∧
    (∀ ev, ev ∈ (REMOVE_EVENT id s).events ↔
      (ev ∈ s.events ∧ ev.id ≠ id)) := by
  refine ⟨?_, ?_, ?_, ?_⟩
  · unfold selectedEvent mapEvents
    exact find_map_pres (fun ev => s.selectedEventId = ev.id) f
      (fun ev => by simp [hf ev]) s.events
  · unfold REMOVE_EVENT mapEvents
    exact filter_map_pres (fun ev => ev.id ≠ id) f
      (fun ev => by simp [hf ev]) s.events
  · exact findIdx_id_map f hf id s.events
  · intro ev
    unfold REMOVE_EVENT
    simp

/-- Witness for C3 amended: flipping every event of the colliding state to
the facebook platform changes neither the lookup position nor the removal
outcome, and removal keeps exactly the differing ids. -/
theorem C3_amended_id_only_key_witness :
    selectedEvent (mapEvents flipPlatform sCollide)
      = (selectedEvent sCollide).map flipPlatform ∧
    (REMOVE_EVENT "x" (mapEvents flipPlatform sCollide)).events
      = ((REMOVE_EVENT "x" sCollide).events).map flipPlatform ∧
    jsFindIndex (fun ev => ev.id = "x") (mapEvents flipPlatform sCollide).events
      = jsFindIndex (fun ev => ev.id = "x") sCollide.events ∧
    (fbEvX ∈ (REMOVE_EVENT "x" sCollide).events ↔
      (fbEvX ∈ sCollide.events ∧ fbEvX.id ≠ "x")) := by
  have h := C3_amended_id_only_key sCollide "x" flipPlatform
    (fun ev => rfl)
  exact ⟨h.1, h.2.1, h.2.2.1, h.2.2.2 fbEvX⟩

/-- C5 counterexample: with start-of-today 1 and a stored draft time 5, a
call passing the time 0 — which is strictly before the start of the day —
opens the modal without any error toast, because the JavaScript expression
`selectedTime?.valueOf() || state.time` treats the passed 0 as falsy and
falls back to the stored time; the claim says the call must reject and
leave the state unchanged. -/
theorem C5_past_date_counterexample :
    (0 : Int) < 1 ∧
    sDraft.isModalVisible = false ∧
    (showNewEventModal 1 TPlatform.youtube (some 0) sDraft).state.isModalVisible
      = true ∧
    (showNewEventModal 1 TPlatform.youtube (some 0) sDraft).toasts = [] := by
  decide

/-- C5 amended: when the effective time — the passed selectedTime when
present and nonzero, otherwise the stored draft time — is strictly before
the start of the current calendar day, showNewEventModal emits the
past-date error toast and returns the state completely unchanged: the modal
is not opened and selectedPlatform, time, platformSettings and events keep
their previous values. -/
theorem C5_amended_past_date_reject (today : Int) (platform : TPlatform)
    (selectedTime : Option Int) (s : SchedulerState)
    (h : effectiveTime selectedTime s < today) :
    showNewEventModal today platform selectedTime s
      = { state := s, toasts := [msgPastDate], threw := false } := by
  unfold showNewEventModal
  rw [if_pos h]

/-- Witness for C5 amended: with start-of-today 10 and stored draft time 5,
a call passing no time is rejected with the past-date toast and the state
is returned untouched. -/
theorem C5_amended_past_date_reject_witness :
    effectiveTime none sDraft < 10 ∧
    showNewEventModal 10 TPlatform.youtube none sDraft
      = { state := sDraft, toasts := [msgPastDate], threw := false } :=
  ⟨by decide,
    C5_amended_past_date_reject 10 TPlatform.youtube none sDraft (by decide)⟩

/-- C9 counterexample: for the calendar day starting at 0, an event dated
exactly at the start of the day and one dated exactly at the last
millisecond of the day (`endOf(day)`) are both left out of the day cell,
because `isBetween` is exclusive at both ends; the claim says both must be
listed. -/
theorem C9_day_cell_counterexample :
    evAtStart.date = 0 ∧
    evAtEnd.date = 0 + dayEndOffset ∧
    dateCellRender [evAtStart] 0 = [] ∧
    dateCellRender [evAtEnd] 0 = [] := by
  refine ⟨by decide, by decide, ?_, ?_⟩
  · unfold dateCellRender
    dsimp only
    rw [show ([evAtStart].filter
        (fun ev => decide ((0 : Int) < ev.date)
          && decide (ev.date < 0 + dayEndOffset))) = [] from by decide]
    exact List.mergeSort_nil
  · unfold dateCellRender
    dsimp only
    rw [show ([evAtEnd].filter
        (fun ev => decide ((0 : Int) < ev.date)
          && decide (ev.date < 0 + dayEndOffset))) = [] from by decide]
    exact List.mergeSort_nil

/-- C9 amended: the day cell for the day starting at dayStart lists exactly
the events whose date lies strictly between the start of the day and its
last millisecond — events exactly at either boundary are excluded — sorted
by time ascending. -/
theorem C9_amended_day_cell (events : List IStreamEvent) (dayStart : Int) :
    (∀ ev, ev ∈ dateCellRender events dayStart ↔
      (ev ∈ events ∧ dayStart < ev.date ∧ ev.date < dayStart + dayEndOffset)) ∧
    (dateCellRender events dayStart).Pairwise
      (fun ev1 ev2 => ev1.date ≤ ev2.date) := by
  constructor
  · intro ev
    unfold dateCellRender
    rw [(List.mergeSort_perm _ _).mem_iff]
    simp
  · unfold dateCellRender
    have hs := @List.sorted_mergeSort IStreamEvent
      (fun ev1 ev2 : IStreamEvent => decide (ev1.date ≤ ev2.date))
      (fun a b c hab hbc => by
        simp only [decide_eq_true_eq] at hab hbc ⊢
        exact le_trans hab hbc)
      (fun a b => by
        simp only [Bool.or_eq_true, decide_eq_true_eq]
        exact le_total a.date b.date)
      (events.filter
        (fun ev => decide (dayStart < ev.date)
          && decide (ev.date < dayStart + dayEndOffset)))
    exact hs.imp (fun h => by simpa using h)

/-- C1: evaluation at the failing input.  In create mode (empty
selectedEventId) with one event already loaded, a successful submit whose
schedule call returns a broadcast with the fresh id `new` leaves the list
length at 1 instead of growing it to 2: `setEvent` finds no index for the
new id, and `splice(-1, 1, event)` replaces the last existing event, which
is silently lost. -/
theorem C1_create_mode_eval :
    sCreate.selectedEventId = "" ∧
    sCreate.events = [oldEv] ∧
    (∀ ev ∈ sCreate.events, ev.id ≠ newYT.id) ∧
    (submit true d0 defaults0 (fun _ => "") (Except.error ())
        (Except.error ()) (Except.ok newYT) (Except.error ())
        sCreate).threw = false ∧
    (submit true d0 defaults0 (fun _ => "") (Except.error ())
        (Except.error ()) (Except.ok newYT) (Except.error ())
        sCreate).state.events
      = [convertYTBroadcastToEvent d0 newYT] ∧
    (submit true d0 defaults0 (fun _ => "") (Except.error ())
        (Except.error ()) (Except.ok newYT) (Except.error ())
        sCreate).state.events.length = 1 ∧
    oldEv ∉ (submit true d0 defaults0 (fun _ => "") (Except.error ())
        (Except.error ()) (Except.ok newYT) (Except.error ())
        sCreate).state.events := by
  decide

/-- C2 counterexample: in update mode on YouTube with the modal open, a
failing updateBroadcast call is not caught at the command boundary: the
rejection escapes submit un-handled, no toast is emitted, and the loading
flag stays set — contradicting the claim for the YouTube update branch. -/
theorem C2_yt_update_error_counterexample :
    isUpdateMode sUpdateYT = true ∧
    sUpdateYT.selectedPlatform = TPlatform.youtube ∧
    sUpdateYT.isModalVisible = true ∧
    (submit true d0 defaults0 (fun _ => "") (Except.error ())
        (Except.error ()) (Except.error ()) (Except.error ())
        sUpdateYT).threw = true ∧
    (submit true d0 defaults0 (fun _ => "") (Except.error ())
        (Except.error ()) (Except.error ()) (Except.error ())
        sUpdateYT).toasts = [] ∧
    (submit true d0 defaults0 (fun _ => "") (Except.error ())
        (Except.error ()) (Except.error ()) (Except.error ())
        sUpdateYT).state.isLoading = true := by
  decide

/-- C2 amended: for a failure of updateLiveVideo (Facebook update branch)
or of scheduleStream (create branch, either platform), submit catches the
error and converts it to the platform-specific toast — the Facebook 7-day /
10-minute message when selectedPlatform is facebook, the generic
cannot-schedule message otherwise — clears the loading flag, leaves the
modal visibility and the event list untouched, and lets no error escape.  A
failure of updateBroadcast (YouTube update branch) is not caught and
propagates. -/
theorem C2_amended_guarded_errors (d : Option String → Int)
    (defaults : ISchedulerPlatformSettings)
    (getDest : IFacebookStartStreamOptions → String)
    (ytU : Except Unit IYoutubeLiveBroadcast)
    (fbU : Except Unit IFacebookLiveVideo)
    (ytS : Except Unit IYoutubeLiveBroadcast)
    (fbS : Except Unit IFacebookLiveVideo)
    (s : SchedulerState)
    (hcase :
      (s.selectedEventId ≠ "" ∧ s.selectedPlatform = TPlatform.facebook ∧
        s.platformSettings.facebook ≠ none ∧
        (∃ ev fbo, selectedEvent s = some ev ∧ ev.facebook = some fbo) ∧
        fbU = Except.error ()) ∨
      (s.selectedEventId = "" ∧
        ((s.selectedPlatform = TPlatform.youtube ∧
            s.platformSettings.youtube ≠ none ∧ ytS = Except.error ()) ∨
          (s.selectedPlatform = TPlatform.facebook ∧
            s.platformSettings.facebook ≠ none ∧
            fbS = Except.error ())))) :
    (submit true d defaults getDest ytU fbU ytS fbS s).threw = false ∧
    (submit true d defaults getDest ytU fbU ytS fbS s).state.isLoading
      = false ∧
    (submit true d defaults getDest ytU fbU ytS fbS s).state.isModalVisible
      = s.isModalVisible ∧
    (submit true d defaults getDest ytU fbU ytS fbS s).state.events
      = s.events ∧
    (submit true d defaults getDest ytU fbU ytS fbS s).toasts
      = [if s.selectedPlatform = TPlatform.facebook then msgFbWindow
         else msgGeneric] := by
  have hred : submit true d defaults getDest ytU fbU ytS fbS s
      = handleError (showLoader s) := by
    show (if isUpdateMode (showLoader s) then
        saveExistingStream d defaults ytU fbU (showLoader s)
      else saveNewStream d defaults getDest ytS fbS (showLoader s))
      = handleError (showLoader s)
    rcases hcase with ⟨hne, hp2, hfbset, ⟨ev, fbo, hsel, hfbo⟩, hfbU⟩ |
      ⟨hemp, hB⟩
    · subst hfbU
      have hup : isUpdateMode (showLoader s) = true := by
        unfold isUpdateMode
        simp only [decide_eq_true_eq]
        exact hne
      rw [hup, if_pos rfl]
      unfold saveExistingStream
      rw [if_neg (show ¬(showLoader s).selectedPlatform = TPlatform.youtube
        from by
          rw [show (showLoader s).selectedPlatform = TPlatform.facebook
            from hp2]
          exact fun h => nomatch h)]
      obtain ⟨fbset, hfbset2⟩ := Option.ne_none_iff_exists.mp hfbset
      simp only [show (showLoader s).platformSettings.facebook = some fbset
        from hfbset2.symm]
      simp only [show selectedEvent (showLoader s) = some ev from hsel]
      simp only [hfbo]
    · have hup : isUpdateMode (showLoader s) = false := by
        unfold isUpdateMode
        rw [show (showLoader s).selectedEventId = "" from hemp]
        decide
      rw [hup, if_neg Bool.false_ne_true]
      unfold saveNewStream
      rcases hB with ⟨hpy, hytset, hytS⟩ | ⟨hpf, hfbset, hfbS⟩
      · subst hytS
        rw [if_pos (show (showLoader s).selectedPlatform = TPlatform.youtube
          from hpy)]
        obtain ⟨ytset, hytset2⟩ := Option.ne_none_iff_exists.mp hytset
        simp only [show (showLoader s).platformSettings.youtube = some ytset
          from hytset2.symm]
      · subst hfbS
        rw [if_neg (show ¬(showLoader s).selectedPlatform = TPlatform.youtube
          from by
            rw [show (showLoader s).selectedPlatform = TPlatform.facebook
              from hpf]
            exact fun h => nomatch h)]
        obtain ⟨fbset, hfbset2⟩ := Option.ne_none_iff_exists.mp hfbset
        simp only [show (showLoader s).platformSettings.facebook = some fbset
          from hfbset2.symm]
  rw [hred]
  exact ⟨rfl, rfl, rfl, rfl, rfl⟩

/-- Witness for C2 amended: a failing scheduleStream call in create mode on
YouTube yields the generic toast, a cleared loading flag, the modal still
open and no escaping error. -/
theorem C2_amended_guarded_errors_witness :
    sCreate.selectedEventId = "" ∧
    (submit true d0 defaults0 (fun _ => "") (Except.error ())
        (Except.error ()) (Except.error ()) (Except.error ())
        sCreate).threw = false ∧
    (submit true d0 defaults0 (fun _ => "") (Except.error ())
        (Except.error ()) (Except.error ()) (Except.error ())
        sCreate).state.isLoading = false ∧
    (submit true d0 defaults0 (fun _ => "") (Except.error ())
        (Except.error ()) (Except.error ()) (Except.error ())
        sCreate).state.isModalVisible = sCreate.isModalVisible ∧
    (submit true d0 defaults0 (fun _ => "") (Except.error ())
        (Except.error ()) (Except.error ()) (Except.error ())
        sCreate).toasts = [msgGeneric] := by
  have h := C2_amended_guarded_errors d0 defaults0 (fun _ => "")
    (Except.error ()) (Except.error ()) (Except.error ()) (Except.error ())
    sCreate
    (Or.inr ⟨rfl, Or.inl ⟨rfl, by decide, rfl⟩⟩)
  refine ⟨rfl, h.1, h.2.1, h.2.2.1, ?_⟩
  rw [h.2.2.2.2]
  rfl

end Scheduler
